import Mathlib

/-!
# Verification of the deployment worker (`src/backend/app/worker.py`)

A shallow embedding of the queue-driven deployment worker.  External
collaborators (the database, the container engine, the HTTP control plane,
the health endpoint) are modelled by an environment of oracles
(`WorkerEnv`), and the worker's observable effects (status callbacks,
container create/remove calls) by an explicit state (`WorkerState`)
threaded through every function.  Python exceptions are modelled with
`Except`: a function that may raise returns `Except ε α`, and an exception
leaves already-performed effects in place.
-/

deriving instance DecidableEq for Except

namespace Worker

/-- Python exception kinds distinguished by the worker's `except` clauses. -/
inductive PyErr where
  | valueError
  | typeError
  | overflowError
  | jsonDecodeError
  | runtime (msg : String)
  deriving Repr, DecidableEq

/-- Modelled from the spec: `app/models/project_submission.py` is absent from
`src/`; the spec's §3 and §6 give the submission lifecycle statuses
`PULLING, DEPLOYING, HEALTHCHECKING, ONLINE, FAILED`, serialized as those
strings in the status-callback body. -/
inductive ProjectSubmissionStatus where
  | PULLING
  | DEPLOYING
  | HEALTHCHECKING
  | ONLINE
  | FAILED
  deriving Repr, DecidableEq

/-- The `.value` wire string of a status (spec §6 status-callback body). -/
def ProjectSubmissionStatus.value : ProjectSubmissionStatus → String
  | .PULLING => "PULLING"
  | .DEPLOYING => "DEPLOYING"
  | .HEALTHCHECKING => "HEALTHCHECKING"
  | .ONLINE => "ONLINE"
  | .FAILED => "FAILED"

/-- Modelled from the spec: `app/services/project_domain.py` is absent from
`src/`; spec §3 says the routing `domain` is derived deterministically from
the submission id by one fixed function shared with the control plane.  The
concrete shape below is a stand-in; every claim uses only that it is a
(non-empty-valued) deterministic function of the submission id. -/
def build_project_domain (submission_id : Int) : String :=
  "project-" ++ toString submission_id ++ ".example.test"

/-- Python truthiness filter used by `_build_status_payload`'s
`if message:` guards: `None` and the empty string are falsy. -/
def optIfTruthy : Option String → Option String
  | some s => if s = "" then none else some s
  | none => none

/-- The status-callback body built by `_build_status_payload`
(worker.py lines 34-53): `status` always present, the other four fields
present only when truthy. -/
structure StatusPayload where
  status : String
  status_message : Option String
  error_code : Option String
  log_append : Option String
  domain : Option String
  deriving Repr, DecidableEq

/-- `_build_status_payload` (worker.py lines 34-53). -/
def build_status_payload (status : ProjectSubmissionStatus)
    (message : Option String := none) (error_code : Option String := none)
    (log_append : Option String := none) (domain : Option String := none) :
    StatusPayload :=
  { status := status.value
    status_message := optIfTruthy message
    error_code := optIfTruthy error_code
    log_append := optIfTruthy log_append
    domain := optIfTruthy domain }

/-- One row of the `project_submission ⋈ project` query issued by
`_load_deploy_target`.  The `domain` column is modelled from the spec
(the ORM model file is absent from `src/`): §4.2 says a domain may be
persisted on the submission. -/
structure SubmissionRow where
  id : Int
  project_id : Int
  image_ref : Option String
  domain : Option String
  current_submission_id : Option Int
  deriving Repr, DecidableEq

/-- `DeployTarget` (worker.py lines 137-144). -/
structure DeployTarget where
  submission_id : Int
  project_id : Int
  image_ref : String
  domain : String
  current_submission_id : Option Int
  deriving Repr, DecidableEq

/-- A container known to the engine: an engine-assigned creation id plus
the user-supplied name. -/
structure Container where
  cid : Nat
  name : String
  deriving Repr, DecidableEq

/-- The container engine's state: the containers that exist, and a counter
supplying fresh creation ids. -/
structure Engine where
  containers : List Container
  nextId : Nat
  deriving Repr, DecidableEq

/-- `client.containers.get(name)`: some container with that name, if any. -/
def Engine.getByName (e : Engine) (name : String) : Option Container :=
  e.containers.find? (fun c => c.name = name)

/-- `container.remove(force=True)`: that container ceases to exist. -/
def Engine.removeContainer (e : Engine) (c : Container) : Engine :=
  { e with containers := e.containers.erase c }

/-- `client.containers.run(..., name=name, detach=True)`: a fresh container
with the requested name comes into existence. -/
def Engine.create (e : Engine) (name : String) : Engine :=
  { containers := e.containers ++ [⟨e.nextId, name⟩], nextId := e.nextId + 1 }

/-- How many containers named `name` exist. -/
def Engine.countName (e : Engine) (name : String) : Nat :=
  (e.containers.filter (fun c => c.name = name)).length

/-- The environment of external oracles the worker interacts with:
configuration (`settings.*`), the database snapshot, and the outcomes of
container-engine and HTTP calls. -/
structure WorkerEnv where
  /-- `settings.WORKER_API_TOKEN`. -/
  apiToken : String
  /-- Database snapshot consulted by `_load_deploy_target`. -/
  db : Int → Option SubmissionRow
  /-- Outcome of `client.images.pull(image_ref)`. -/
  pullOk : String → Bool
  /-- Outcome of `_resolve_deploy_network` (abstracted: it depends on
  `settings.WORKER_DEPLOY_NETWORK`, the engine's networks and the worker's
  own container, none of which any claim inspects further). -/
  resolvedNetwork : Option String
  /-- Outcome of `client.containers.run`, beyond the engine-state change. -/
  runOk : Bool
  /-- Outcome of `container.remove(force=True)` for a given name. -/
  removeOk : String → Bool
  /-- Transport outcome of the k-th status PATCH of the run (2xx vs
  raise/non-2xx). -/
  reportOk : Nat → Bool
  /-- `settings.WORKER_HEALTHCHECK_ENABLED`. -/
  healthEnabled : Bool
  /-- `settings.WORKER_HEALTHCHECK_RETRY`. -/
  healthRetry : Nat
  /-- Response of the i-th health-check GET: `some code` for an HTTP
  response, `none` for a transport error (`httpx.HTTPError`). -/
  healthResp : Nat → Option Nat

/-- One status-callback invocation: target submission and body sent. -/
structure Report where
  submission_id : Int
  payload : StatusPayload
  deriving Repr, DecidableEq

/-- The worker's observable effect trace plus the engine state:
`reports` records every status PATCH issued (in order), `removals` records
every name passed to a `container.remove(force=True)` attempt. -/
structure WorkerState where
  engine : Engine
  reports : List Report
  removals : List String
  deriving Repr, DecidableEq

/-- `_update_status` (worker.py lines 62-75): raises when the token is
unconfigured (before any request), records the PATCH invocation, raises on
transport failure / non-2xx. -/
def update_status (env : WorkerEnv) (st : WorkerState) (submission_id : Int)
    (payload : StatusPayload) : Except PyErr Unit × WorkerState :=
  if env.apiToken = "" then
    (.error (.runtime "WORKER_API_TOKEN 未配置，无法回写状态"), st)
  else
    let idx := st.reports.length
    let st' := { st with reports := st.reports ++ [⟨submission_id, payload⟩] }
    if env.reportOk idx then (.ok (), st')
    else (.error (.runtime "状态回写失败"), st')

/-- `_safe_update_status` (worker.py lines 78-87): like `update_status` but
its own failure is logged, never propagated. -/
def safe_update_status (env : WorkerEnv) (st : WorkerState)
    (submission_id : Int) (payload : StatusPayload) : WorkerState :=
  (update_status env st submission_id payload).2

/-- `QueueJob` (worker.py lines 90-94). -/
structure QueueJob where
  action : String
  submission_id : Int
  deriving Repr, DecidableEq

/-- Python falsiness of the nullable `image_ref` column
(`if not submission.image_ref`): `None` or the empty string. -/
def pyFalsyOptStr : Option String → Bool
  | none => true
  | some s => s = ""

/-- `_load_deploy_target` (worker.py lines 147-171): one joined query; raises
if the submission row is missing or its image reference is falsy; the
domain is always derived via `build_project_domain`. -/
def load_deploy_target (env : WorkerEnv) (submission_id : Int) :
    Except PyErr DeployTarget :=
  match env.db submission_id with
  | none => .error (.runtime "提交记录不存在")
  | some row =>
    if pyFalsyOptStr row.image_ref then
      .error (.runtime "提交缺少镜像引用")
    else
      .ok { submission_id := row.id
            project_id := row.project_id
            image_ref := row.image_ref.getD ""
            domain := build_project_domain submission_id
            current_submission_id := row.current_submission_id }

/-- `_build_container_name` (worker.py lines 204-206). -/
def build_container_name (submission_id : Int) : String :=
  "project-" ++ toString submission_id

/-- `_remove_container_if_exists` (worker.py lines 228-234): a `NotFound`
`get` returns silently; otherwise the container is force-removed (the
removal attempt is recorded, and may itself raise per `env.removeOk`). -/
def remove_container_if_exists (env : WorkerEnv) (st : WorkerState)
    (name : String) : Except PyErr Unit × WorkerState :=
  match st.engine.getByName name with
  | none => (.ok (), st)
  | some c =>
    let st' := { st with removals := st.removals ++ [name] }
    if env.removeOk name then
      (.ok (), { st' with engine := st'.engine.removeContainer c })
    else
      (.error (.runtime "remove failed"), st')

/-- `_docker_pull` / `_docker_pull_sync` (worker.py lines 237-247). -/
def docker_pull (env : WorkerEnv) (image_ref : String) : Except PyErr Unit :=
  if env.pullOk image_ref then .ok () else .error (.runtime "image pull failed")

/-- `_start_container` / `_start_container_sync` (worker.py lines 250-297):
resolve the deploy network (raise if none), force-remove any same-named
container, then create the new container (hardened `run_kwargs` elided:
no claim inspects them). -/
def start_container (env : WorkerEnv) (st : WorkerState)
    (target : DeployTarget) : Except PyErr String × WorkerState :=
  match env.resolvedNetwork with
  | none => (.error (.runtime "未检测到部署网络，请配置 WORKER_DEPLOY_NETWORK"), st)
  | some _ =>
    let container_name := build_container_name target.submission_id
    match remove_container_if_exists env st container_name with
    | (.error e, st') => (.error e, st')
    | (.ok _, st') =>
      if env.runOk then
        (.ok container_name, { st' with engine := st'.engine.create container_name })
      else
        (.error (.runtime "container run failed"), st')

/-- `_remove_container` / `_remove_container_sync` (worker.py lines 300-310). -/
def remove_container (env : WorkerEnv) (st : WorkerState) (name : String) :
    Except PyErr Unit × WorkerState :=
  remove_container_if_exists env st name

/-- The retry loop of `_health_check` (worker.py lines 319-327): `n` attempts
remaining, `i` the index of the next attempt; returns whether a 200 was
seen and how many GET requests were issued. -/
def health_check_go (resp : Nat → Option Nat) : Nat → Nat → Bool × Nat
  | 0, _ => (false, 0)
  | n + 1, i =>
    if resp i = some 200 then (true, 1)
    else
      let r := health_check_go resp n (i + 1)
      (r.1, r.2 + 1)

/-- `_health_check` (worker.py lines 313-327): trivially passes when the
switch is off (zero requests); otherwise polls up to
`WORKER_HEALTHCHECK_RETRY` times, succeeding on the first 200; a transport
error (`resp i = none`) and a non-200 response take the same branch.
Returns (success, number of GET requests issued). -/
def health_check (env : WorkerEnv) : Bool × Nat :=
  if !env.healthEnabled then (true, 0)
  else health_check_go env.healthResp env.healthRetry 0

/-- `_cleanup_old_container` (worker.py lines 330-338): no-op when
`current_id` is falsy (None or 0) or equals the new id; otherwise removes
the old container by name, swallowing any failure. -/
def cleanup_old_container (env : WorkerEnv) (st : WorkerState)
    (current_id : Option Int) (new_id : Int) : WorkerState :=
  match current_id with
  | none => st
  | some cur =>
    if cur = 0 ∨ cur = new_id then st
    else (remove_container env st (build_container_name cur)).2

/-- `_stop_submission` (worker.py lines 341-348): remove the named
container, swallowing any failure; no status callback. -/
def stop_submission (env : WorkerEnv) (st : WorkerState)
    (submission_id : Int) : WorkerState :=
  (remove_container env st (build_container_name submission_id)).2

/-- Rendering of an exception interpolated into the FAILED log line
(`f"部署失败: {exc}"`). -/
def PyErr.text : PyErr → String
  | .valueError => "ValueError"
  | .typeError => "TypeError"
  | .overflowError => "OverflowError"
  | .jsonDecodeError => "JSONDecodeError"
  | .runtime m => m

/-- The PULLING callback body (worker.py lines 360-364). -/
def pullingPayload (target : DeployTarget) : StatusPayload :=
  build_status_payload .PULLING (some "拉取镜像中") none
    (some ("开始拉取镜像: " ++ target.image_ref)) none

/-- The DEPLOYING callback body (worker.py lines 371-375). -/
def deployingPayload : StatusPayload :=
  build_status_payload .DEPLOYING (some "部署中") none
    (some "创建容器并接入网关") none

/-- The HEALTHCHECKING callback body (worker.py lines 382-386). -/
def healthcheckingPayload : StatusPayload :=
  build_status_payload .HEALTHCHECKING (some "健康检查中") none
    (some "开始健康检查") none

/-- The ONLINE callback body (worker.py lines 396-401). -/
def onlinePayload (target : DeployTarget) : StatusPayload :=
  build_status_payload .ONLINE (some "上线成功") none
    (some "健康检查通过，已上线") (some target.domain)

/-- The FAILED callback body (worker.py lines 413-418). -/
def failedPayload (exc : PyErr) : StatusPayload :=
  build_status_payload .FAILED (some "部署失败") (some "worker_failed")
    (some ("部署失败: " ++ exc.text ++ "\n已执行清理")) none

/-- The `try:` block of `_process_submission` (worker.py lines 356-403):
report PULLING, pull, report DEPLOYING, start the container, report
HEALTHCHECKING, run the health gate (raising on failure), report ONLINE
with the target's domain, then clean up the old container.  Any raise
stops the block with the effects so far kept. -/
def pipeline_body (env : WorkerEnv) (st : WorkerState) (submission_id : Int)
    (target : DeployTarget) : Except PyErr Unit × WorkerState :=
  match update_status env st submission_id (pullingPayload target) with
  | (.error e, st1) => (.error e, st1)
  | (.ok _, st1) =>
    match docker_pull env target.image_ref with
    | .error e => (.error e, st1)
    | .ok _ =>
      match update_status env st1 submission_id deployingPayload with
      | (.error e, st2) => (.error e, st2)
      | (.ok _, st2) =>
        match start_container env st2 target with
        | (.error e, st3) => (.error e, st3)
        | (.ok _, st3) =>
          match update_status env st3 submission_id healthcheckingPayload with
          | (.error e, st4) => (.error e, st4)
          | (.ok _, st4) =>
            if (health_check env).1 = false then
              (.error (.runtime "健康检查失败"), st4)
            else
              match update_status env st4 submission_id (onlinePayload target) with
              | (.error e, st5) => (.error e, st5)
              | (.ok _, st5) =>
                (.ok (),
                 cleanup_old_container env st5 target.current_submission_id
                   submission_id)

/-- `_process_submission` (worker.py lines 351-419).  Note that
`_load_deploy_target` is called *before* the `try:` block, so a resolution
failure propagates out of this function; any exception inside the block is
caught: the submission's container is removed (that removal's own failure
swallowed by the inner `try`), and FAILED is reported via the safe
reporter. -/
def process_submission (env : WorkerEnv) (st : WorkerState)
    (submission_id : Int) : Except PyErr Unit × WorkerState :=
  let container_name := build_container_name submission_id
  match load_deploy_target env submission_id with
  | .error e => (.error e, st)
  | .ok target =>
    match pipeline_body env st submission_id target with
    | (.ok _, st') => (.ok (), st')
    | (.error exc, st') =>
      let st2 := (remove_container env st' container_name).2
      let st3 := safe_update_status env st2 submission_id (failedPayload exc)
      (.ok (), st3)

/-! ## Python value semantics for the queue-message decoder

`_parse_queue_item` round-trips through `str.strip`, `int(...)`,
`json.loads`, `str(...).lower()` and `int(...)` again.  Those Python
semantics are embedded below.  Modelling boundaries (each invisible to
every claim checked here): `str.strip`/`int(str)` recognise ASCII
whitespace and ASCII digits (not the full Unicode sets); `str()` of float,
list and dict values is a placeholder that, like Python's rendering,
can never equal "deploy"/"stop"; a decimal literal is held as an exact
rational, conversion to a Python float being the identity below the
overflow threshold `2^1024` and infinity above it. -/

/-- Whitespace stripped by `str.strip()` / accepted by `int(str)`. -/
def pyIsWs (c : Char) : Bool :=
  c = ' ' ∨ c = '\t' ∨ c = '\n' ∨ c = '\r' ∨ c = '\x0b' ∨ c = '\x0c'

/-- `text.strip()`. -/
def pyStrip (s : String) : String :=
  ⟨(((s.toList.dropWhile pyIsWs).reverse.dropWhile pyIsWs).reverse)⟩

/-- Digit groups of a Python integer literal: non-empty digits with single
underscores allowed strictly between digits. -/
def digitsU : List Char → Bool
  | [] => false
  | [c] => c.isDigit
  | c :: c2 :: rest =>
    if c.isDigit then
      if c2 = '_' then
        match rest with
        | [] => false
        | _ => digitsU rest
      else digitsU (c2 :: rest)
    else false

/-- Numeric value of a digit list. -/
def digitsVal (ds : List Char) : Nat :=
  ds.foldl (fun a c => a * 10 + (c.toNat - '0'.toNat)) 0

/-- `int(s)` for a Python `str`: optional surrounding whitespace, optional
sign, then digits (with embedded underscores); `none` models the
`ValueError`. -/
def pyIntOfString (s : String) : Option Int :=
  let cs := ((s.toList.dropWhile pyIsWs).reverse.dropWhile pyIsWs).reverse
  match cs with
  | '+' :: body => if digitsU body then some (digitsVal (body.filter (fun c => c ≠ '_'))) else none
  | '-' :: body => if digitsU body then some (-(digitsVal (body.filter (fun c => c ≠ '_')) : Int)) else none
  | body => if digitsU body then some (digitsVal (body.filter (fun c => c ≠ '_'))) else none

/-- The Python values `json.loads` can produce (restricted to JSON's own
value universe plus the `NaN`/`Infinity` extensions Python accepts by
default). -/
inductive PyVal where
  | pynone
  | pybool (b : Bool)
  | pyint (n : Int)
  /-- A finite float from a decimal literal, held exactly as
  `(-1)^neg * m * 10^e`. -/
  | pyfloat (neg : Bool) (m : Nat) (e : Int)
  | pyinf (neg : Bool)
  | pynan
  | pystr (s : String)
  | pylist (xs : List PyVal)
  | pydict (kvs : List (String × PyVal))
  deriving Repr

/-- `int(x)` on a decoded JSON value: exact for ints, `True`/`False` are
1/0, floats truncate toward zero, infinities raise `OverflowError`, `NaN`
raises `ValueError`, strings re-parse as integer literals, and `None`,
lists and dicts raise `TypeError`. -/
def pyIntCoerce : PyVal → Except PyErr Int
  | .pyint n => .ok n
  | .pybool b => .ok (if b then 1 else 0)
  | .pyfloat neg m e =>
    let mag : Int :=
      if 0 ≤ e then (m * 10 ^ e.toNat : Nat) else ((m / 10 ^ (-e).toNat : Nat) : Int)
    .ok (if neg then -mag else mag)
  | .pyinf _ => .error .overflowError
  | .pynan => .error .valueError
  | .pystr s =>
    match pyIntOfString s with
    | some n => .ok n
    | none => .error .valueError
  | .pynone => .error .typeError
  | .pylist _ => .error .typeError
  | .pydict _ => .error .typeError

/-- `str(x)` on a decoded JSON value (see the modelling-boundary note
above for the float/list/dict placeholders). -/
def pyStr : PyVal → String
  | .pystr s => s
  | .pynone => "None"
  | .pybool b => if b then "True" else "False"
  | .pyint n => toString n
  | .pyfloat _ _ _ => "<float repr>"
  | .pyinf neg => if neg then "-inf" else "inf"
  | .pynan => "nan"
  | .pylist _ => "[list repr]"
  | .pydict _ => "\x7bdict repr\x7d"

/-- `s.lower()` (ASCII). -/
def pyLower (s : String) : String := ⟨s.data.map Char.toLower⟩

/-- `data.get(k)` on a dict built by `json.loads`: with duplicate keys the
last binding wins, as in Python. -/
def pyDictGet (kvs : List (String × PyVal)) (k : String) : Option PyVal :=
  (kvs.reverse.find? (fun p => p.1 = k)).map Prod.snd

/-- JSON insignificant whitespace. -/
def jsonSkipWs : List Char → List Char
  | c :: rest =>
    if c = ' ' ∨ c = '\t' ∨ c = '\n' ∨ c = '\r' then jsonSkipWs rest else c :: rest
  | [] => []

/-- Hex digit value for `\uXXXX` escapes. -/
def hexVal (c : Char) : Option Nat :=
  if '0' ≤ c ∧ c ≤ '9' then some (c.toNat - '0'.toNat)
  else if 'a' ≤ c ∧ c ≤ 'f' then some (c.toNat - 'a'.toNat + 10)
  else if 'A' ≤ c ∧ c ≤ 'F' then some (c.toNat - 'A'.toNat + 10)
  else none

/-- JSON string body (after the opening quote): literal characters above
U+001F, the two-character escapes, and `\uXXXX` (surrogate pairs not
recombined — no claim touches them). -/
def parseJsonString : Nat → List Char → Option (List Char × List Char)
  | 0, _ => none
  | fuel + 1, cs =>
    match cs with
    | [] => none
    | '"' :: rest => some ([], rest)
    | '\\' :: esc =>
      match esc with
      | '"' :: rest => (parseJsonString fuel rest).map (fun p => ('"' :: p.1, p.2))
      | '\\' :: rest => (parseJsonString fuel rest).map (fun p => ('\\' :: p.1, p.2))
      | '/' :: rest => (parseJsonString fuel rest).map (fun p => ('/' :: p.1, p.2))
      | 'b' :: rest => (parseJsonString fuel rest).map (fun p => ('\x08' :: p.1, p.2))
      | 'f' :: rest => (parseJsonString fuel rest).map (fun p => ('\x0c' :: p.1, p.2))
      | 'n' :: rest => (parseJsonString fuel rest).map (fun p => ('\n' :: p.1, p.2))
      | 'r' :: rest => (parseJsonString fuel rest).map (fun p => ('\r' :: p.1, p.2))
      | 't' :: rest => (parseJsonString fuel rest).map (fun p => ('\t' :: p.1, p.2))
      | 'u' :: h1 :: h2 :: h3 :: h4 :: rest =>
        match hexVal h1, hexVal h2, hexVal h3, hexVal h4 with
        | some a, some b, some c, some d =>
          let n := ((a * 16 + b) * 16 + c) * 16 + d
          let ch := if h : n.isValidChar then Char.ofNatAux n h else '�'
          (parseJsonString fuel rest).map (fun p => (ch :: p.1, p.2))
        | _, _, _, _ => none
      | _ => none
    | c :: rest =>
      if c.toNat < 0x20 then none
      else (parseJsonString fuel rest).map (fun p => (c :: p.1, p.2))

/-- Longest digit prefix. -/
def takeDigits (cs : List Char) : List Char × List Char :=
  (cs.takeWhile Char.isDigit, cs.dropWhile Char.isDigit)

/-- Python float overflow threshold: a decimal literal of magnitude
`m * 10^e` reaching `2^1024` converts to an infinity (claims only
exercise this far from the rounding boundary). -/
def floatOverflows (m : Nat) (e : Int) : Bool :=
  if 0 ≤ e then 2 ^ 1024 ≤ m * 10 ^ e.toNat
  else 2 ^ 1024 * 10 ^ (-e).toNat ≤ m

/-- The Python float a non-integer JSON number token denotes: the exact
decimal value, or an infinity past the overflow threshold. -/
def mkJsonFloat (neg : Bool) (intDs fracDs : List Char) (e : Int) : PyVal :=
  let m := digitsVal (intDs ++ fracDs)
  let e' : Int := e - fracDs.length
  if floatOverflows m e' then .pyinf neg else .pyfloat neg m e'

/-- A JSON number token: `-? (0 | [1-9][0-9]*) (. [0-9]+)? ([eE][+-]?[0-9]+)?`.
Without fraction and exponent it is a Python int; with either it is a
Python float. -/
def parseJsonNumber (cs0 : List Char) : Option (PyVal × List Char) :=
  let sgn : Bool × List Char :=
    match cs0 with
    | '-' :: rest => (true, rest)
    | _ => (false, cs0)
  let neg := sgn.1
  match takeDigits sgn.2 with
  | ([], _) => none
  | (intDs, cs2) =>
    if intDs.head? = some '0' ∧ intDs.length > 1 then none
    else
      let fr : Option (Option (List Char)) × List Char :=
        match cs2 with
        | '.' :: cs2' =>
          match takeDigits cs2' with
          | ([], _) => (some none, cs2')
          | (ds, rest) => (some (some ds), rest)
        | _ => (none, cs2)
      match fr with
      | (some none, _) => none
      | (fracOpt, cs3) =>
        let ex : Option (Option Int) × List Char :=
          match cs3 with
          | 'e' :: cs3' | 'E' :: cs3' =>
            let esgn : Int × List Char :=
              match cs3' with
              | '+' :: r => (1, r)
              | '-' :: r => (-1, r)
              | _ => (1, cs3')
            match takeDigits esgn.2 with
            | ([], _) => (some none, esgn.2)
            | (ds, rest) => (some (some (esgn.1 * (digitsVal ds : Int))), rest)
          | _ => (none, cs3)
        match ex with
        | (some none, _) => none
        | (exOpt, cs4) =>
          let fracDs : Option (List Char) := fracOpt.getD none
          let eVal : Option Int := exOpt.getD none
          match fracDs, eVal with
          | none, none =>
            some (.pyint (if neg then -(digitsVal intDs : Int) else (digitsVal intDs : Int)), cs4)
          | _, _ => some (mkJsonFloat neg intDs (fracDs.getD []) (eVal.getD 0), cs4)

mutual

/-- One JSON value (fuel-indexed recursive-descent; the fuel used by
`json_loads` always suffices): the keyword literals, Python's `NaN` /
`Infinity` extensions, strings, arrays, objects and numbers. -/
def parseJsonValue : Nat → List Char → Option (PyVal × List Char)
  | 0, _ => none
  | fuel + 1, cs =>
    match jsonSkipWs cs with
    | 'n' :: 'u' :: 'l' :: 'l' :: rest => some (.pynone, rest)
    | 't' :: 'r' :: 'u' :: 'e' :: rest => some (.pybool true, rest)
    | 'f' :: 'a' :: 'l' :: 's' :: 'e' :: rest => some (.pybool false, rest)
    | 'N' :: 'a' :: 'N' :: rest => some (.pynan, rest)
    | 'I' :: 'n' :: 'f' :: 'i' :: 'n' :: 'i' :: 't' :: 'y' :: rest =>
      some (.pyinf false, rest)
    | '-' :: 'I' :: 'n' :: 'f' :: 'i' :: 'n' :: 'i' :: 't' :: 'y' :: rest =>
      some (.pyinf true, rest)
    | '"' :: rest =>
      (parseJsonString (rest.length + 1) rest).map (fun p => (.pystr ⟨p.1⟩, p.2))
    | '[' :: rest =>
      match jsonSkipWs rest with
      | ']' :: rest' => some (.pylist [], rest')
      | cs' => parseJsonElems fuel cs' []
    | '{' :: rest =>
      match jsonSkipWs rest with
      | '}' :: rest' => some (.pydict [], rest')
      | cs' => parseJsonMembers fuel cs' []
    | cs' => parseJsonNumber cs'

/-- Comma-separated array elements up to the closing bracket. -/
def parseJsonElems : Nat → List Char → List PyVal → Option (PyVal × List Char)
  | 0, _, _ => none
  | fuel + 1, cs, acc =>
    match parseJsonValue fuel cs with
    | none => none
    | some (v, rest) =>
      match jsonSkipWs rest with
      | ',' :: rest' => parseJsonElems fuel rest' (acc ++ [v])
      | ']' :: rest' => some (.pylist (acc ++ [v]), rest')
      | _ => none

/-- Comma-separated `"key": value` members up to the closing brace. -/
def parseJsonMembers : Nat → List Char → List (String × PyVal) →
    Option (PyVal × List Char)
  | 0, _, _ => none
  | fuel + 1, cs, acc =>
    match jsonSkipWs cs with
    | '"' :: rest =>
      match parseJsonString (rest.length + 1) rest with
      | none => none
      | some (key, rest') =>
        match jsonSkipWs rest' with
        | ':' :: rest'' =>
          match parseJsonValue fuel rest'' with
          | none => none
          | some (v, rest3) =>
            match jsonSkipWs rest3 with
            | ',' :: rest4 => parseJsonMembers fuel rest4 (acc ++ [(⟨key⟩, v)])
            | '}' :: rest4 => some (.pydict (acc ++ [(⟨key⟩, v)]), rest4)
            | _ => none
        | _ => none
    | _ => none

end

/-- `json.loads(text)`: parse one value and require only whitespace after
it; any failure is the `JSONDecodeError` that `_parse_queue_item`
catches. -/
def json_loads (s : String) : Except PyErr PyVal :=
  let cs := s.toList
  match parseJsonValue (2 * cs.length + 2) cs with
  | none => .error .jsonDecodeError
  | some (v, rest) =>
    match jsonSkipWs rest with
    | [] => .ok v
    | _ => .error .jsonDecodeError

/-- `_parse_queue_item` (worker.py lines 97-134) on the decoded text:
empty (after strip) means no job; a Python-int text is a legacy deploy
job; otherwise `json.loads` (decode errors dropped), requiring a dict,
whose `action` is stringified and lowercased and whose `submission_id` is
int-coerced — `TypeError`/`ValueError` there are caught (no job), but any
other exception (an `OverflowError` from an infinite float) propagates;
finally the action must be `deploy` or `stop`. -/
def parse_queue_item (raw : String) : Except PyErr (Option QueueJob) :=
  let text := pyStrip raw
  if text = "" then .ok none
  else
    match pyIntOfString text with
    | some n => .ok (some ⟨"deploy", n⟩)
    | none =>
      match json_loads text with
      | .error _ => .ok none
      | .ok data =>
        match data with
        | .pydict kvs =>
          let action := pyLower (pyStr ((pyDictGet kvs "action").getD (.pystr "")))
          let coerced : Except PyErr Int :=
            match pyDictGet kvs "submission_id" with
            | none => .error .typeError
            | some v => pyIntCoerce v
          match coerced with
          | .error .typeError => .ok none
          | .error .valueError => .ok none
          | .error e => .error e
          | .ok n =>
            if action = "deploy" ∨ action = "stop" then .ok (some ⟨action, n⟩)
            else .ok none
        | _ => .ok none

/-- One iteration of the `while True:` body of `_worker_loop`
(worker.py lines 432-448) for a dequeued message: decode (a decoder
exception propagates), drop no-jobs, dispatch deploy/stop.  There is no
`try`/`except` around the dispatch, so an exception from
`_process_submission` propagates out of the loop. -/
def worker_step (env : WorkerEnv) (st : WorkerState) (raw : String) :
    Except PyErr Unit × WorkerState :=
  match parse_queue_item raw with
  | .error e => (.error e, st)
  | .ok none => (.ok (), st)
  | .ok (some job) =>
    if job.action = "deploy" then process_submission env st job.submission_id
    else if job.action = "stop" then (.ok (), stop_submission env st job.submission_id)
    else (.ok (), st)

/-- The `while True:` loop of `_worker_loop` over a finite prefix of the
queue: process messages in order, stopping (with the exception and the
state reached) as soon as one iteration raises. -/
def worker_loop_msgs (env : WorkerEnv) (st : WorkerState) :
    List String → Except PyErr Unit × WorkerState
  | [] => (.ok (), st)
  | raw :: rest =>
    match worker_step env st raw with
    | (.ok _, st') => worker_loop_msgs env st' rest
    | (.error e, st') => (.error e, st')

/-- `_worker_loop` (worker.py lines 422-450): refuse to run without the
API token, else consume the queue. -/
def worker_loop (env : WorkerEnv) (st : WorkerState) (msgs : List String) :
    Except PyErr Unit × WorkerState :=
  if env.apiToken = "" then (.ok (), st)
  else worker_loop_msgs env st msgs

/-! ## Concrete instances used by witnesses and counterexamples -/

/-- A worker state with nothing deployed and empty traces. -/
def emptyState : WorkerState :=
  { engine := { containers := [], nextId := 0 }, reports := [], removals := [] }

/-- A deployable submission row: id 1, previously-live submission 9. -/
def rowA : SubmissionRow :=
  { id := 1, project_id := 10, image_ref := some "registry.test/img:1"
    domain := none, current_submission_id := some 9 }

/-- An all-healthy environment that can deploy submission 1. -/
def envA : WorkerEnv :=
  { apiToken := "tok"
    db := fun i => if i = 1 then some rowA else none
    pullOk := fun _ => true
    resolvedNetwork := some "deploy-net"
    runOk := true
    removeOk := fun _ => true
    reportOk := fun _ => true
    healthEnabled := true
    healthRetry := 3
    healthResp := fun i => if i = 2 then some 200 else some 500 }

/-- A state holding only the previously-live container `project-9`. -/
def stateA : WorkerState :=
  { engine := { containers := [⟨0, "project-9"⟩], nextId := 1 }
    reports := [], removals := [] }

/-- The deploy target submission 1 resolves to under `envA`. -/
def targetA : DeployTarget :=
  { submission_id := 1, project_id := 10, image_ref := "registry.test/img:1"
    domain := build_project_domain 1, current_submission_id := some 9 }

/-- A deployable row for submission 2 (no live predecessor). -/
def rowB : SubmissionRow :=
  { id := 2, project_id := 10, image_ref := some "registry.test/img:2"
    domain := none, current_submission_id := none }

/-- Environment for the C1 counterexample: submission 1 has no database
row (resolution fails) while submission 2 is fully deployable. -/
def envMissingRow : WorkerEnv :=
  { envA with db := fun i => if i = 2 then some rowB else none }

/-- Row for the C3 counterexample: submission 1 is itself the live
submission of its project (`current_submission_id = 1`). -/
def rowSelfLive : SubmissionRow :=
  { id := 1, project_id := 10, image_ref := some "registry.test/img:1"
    domain := none, current_submission_id := some 1 }

/-- Environment for the C3 counterexample: resolution succeeds with
`current_submission_id = submission_id = 1` but the image pull fails. -/
def envPullFail : WorkerEnv :=
  { envA with db := fun i => if i = 1 then some rowSelfLive else none
              pullOk := fun _ => false }

/-- A state in which the live container `project-1` (of the live
submission 1) is running. -/
def stateSelfLive : WorkerState :=
  { engine := { containers := [⟨0, "project-1"⟩], nextId := 1 }
    reports := [], removals := [] }

/-- The deploy target submission 1 resolves to under `envPullFail`. -/
def targetSelfLive : DeployTarget :=
  { submission_id := 1, project_id := 10, image_ref := "registry.test/img:1"
    domain := build_project_domain 1, current_submission_id := some 1 }

/-- Environment for the C7 witness: everything healthy, but removing the
old container `project-9` fails. -/
def envOldRemoveFails : WorkerEnv :=
  { envA with removeOk := fun nm => nm ≠ "project-9" }

/-- Row for the C8 counterexample: a domain is pinned on the submission. -/
def rowPinnedDomain : SubmissionRow :=
  { id := 1, project_id := 10, image_ref := some "registry.test/img:1"
    domain := some "pinned.example.com", current_submission_id := none }

/-- Environment for the C8 counterexample. -/
def envPinnedDomain : WorkerEnv :=
  { envA with db := fun i => if i = 1 then some rowPinnedDomain else none }

/-- The C5 counterexample queue message: well-formed JSON whose
`submission_id` is a float literal that overflows to infinity. -/
def overflowMsg : String :=
  "\x7b\"action\":\"deploy\",\"submission_id\":1e400\x7d"

/-- The queue message of the spec's stop example. -/
def stopMsg7 : String :=
  "\x7b\"action\":\"stop\",\"submission_id\":7\x7d"

/-! ## Engine lemmas -/

lemma Engine.countName_removeContainer_le (e : Engine) (c : Container) (nm : String) :
    (e.removeContainer c).countName nm ≤ e.countName nm := by
  unfold Engine.removeContainer Engine.countName
  exact ((List.erase_sublist _ _).filter _).length_le

lemma Engine.getByName_none_countName {e : Engine} {nm : String}
    (h : e.getByName nm = none) : e.countName nm = 0 := by
  unfold Engine.getByName at h
  unfold Engine.countName
  rw [List.find?_eq_none] at h
  rw [List.length_eq_zero, List.filter_eq_nil_iff]
  exact h

lemma Engine.getByName_some {e : Engine} {nm : String} {c : Container}
    (h : e.getByName nm = some c) : c ∈ e.containers ∧ c.name = nm := by
  unfold Engine.getByName at h
  refine ⟨List.mem_of_find?_eq_some h, ?_⟩
  simpa using List.find?_some h

lemma Engine.one_le_countName {e : Engine} {c : Container} {nm : String}
    (hc : c ∈ e.containers) (hname : c.name = nm) : 1 ≤ e.countName nm := by
  unfold Engine.countName
  have : c ∈ e.containers.filter (fun x => x.name = nm) :=
    List.mem_filter.2 ⟨hc, by simp [hname]⟩
  exact List.length_pos.2 (List.ne_nil_of_mem this)

lemma Engine.countName_removeContainer_of_mem {e : Engine} {c : Container} {nm : String}
    (hc : c ∈ e.containers) (hname : c.name = nm) :
    (e.removeContainer c).countName nm = e.countName nm - 1 := by
  obtain ⟨l₁, l₂, _, hl, he⟩ := List.exists_erase_eq hc
  unfold Engine.removeContainer Engine.countName
  rw [he, hl]
  simp [List.filter_append, List.filter_cons, hname]

lemma Engine.countName_removeContainer_other {e : Engine} {c : Container} {nm nm' : String}
    (hc : c ∈ e.containers) (hname : c.name = nm) (hne : nm' ≠ nm) :
    (e.removeContainer c).countName nm' = e.countName nm' := by
  obtain ⟨l₁, l₂, _, hl, he⟩ := List.exists_erase_eq hc
  unfold Engine.removeContainer Engine.countName
  rw [he, hl]
  have hcnm : ¬ (c.name = nm') := by rw [hname]; exact fun h => hne h.symm
  simp [List.filter_append, List.filter_cons, hcnm]

lemma Engine.countName_create (e : Engine) (nm nm' : String) :
    (e.create nm).countName nm' = e.countName nm' + (if nm = nm' then 1 else 0) := by
  unfold Engine.create Engine.countName
  by_cases h : nm = nm' <;> simp [List.filter_append, List.filter_cons, h]

/-! ## Step lemmas: one characterization per worker primitive -/

lemma update_status_ok {env : WorkerEnv} {st : WorkerState} {sid : Int}
    {p : StatusPayload} (htok : ¬ env.apiToken = "")
    (hrep : env.reportOk st.reports.length = true) :
    update_status env st sid p =
      (.ok (), { st with reports := st.reports ++ [⟨sid, p⟩] }) := by
  simp [update_status, htok, hrep]

lemma update_status_ok_all {env : WorkerEnv} (htok : ¬ env.apiToken = "")
    (hrep : ∀ k, env.reportOk k = true) :
    ∀ (st : WorkerState) (sid : Int) (p : StatusPayload),
      update_status env st sid p =
        (.ok (), { st with reports := st.reports ++ [⟨sid, p⟩] }) :=
  fun _ _ _ => update_status_ok htok (hrep _)

lemma update_status_engine (env : WorkerEnv) (st : WorkerState) (sid : Int)
    (p : StatusPayload) :
    ((update_status env st sid p).2).engine = st.engine ∧
    ((update_status env st sid p).2).removals = st.removals := by
  simp only [update_status]
  split
  · exact ⟨rfl, rfl⟩
  · split <;> exact ⟨rfl, rfl⟩

lemma safe_update_status_eq {env : WorkerEnv} (st : WorkerState) (sid : Int)
    (p : StatusPayload) (htok : ¬ env.apiToken = "") :
    safe_update_status env st sid p =
      { st with reports := st.reports ++ [⟨sid, p⟩] } := by
  unfold safe_update_status
  simp only [update_status, htok, if_false]
  split <;> rfl

lemma remove_if_exists_reports (env : WorkerEnv) (st : WorkerState) (nm : String) :
    ((remove_container_if_exists env st nm).2).reports = st.reports := by
  unfold remove_container_if_exists
  split
  · rfl
  · split <;> rfl

lemma remove_if_exists_count_le (env : WorkerEnv) (st : WorkerState) (nm nm' : String) :
    ((remove_container_if_exists env st nm).2).engine.countName nm' ≤
      st.engine.countName nm' := by
  unfold remove_container_if_exists
  split
  · exact le_refl _
  case h_2 c hc =>
    split
    · exact Engine.countName_removeContainer_le _ _ _
    · exact le_refl _

lemma remove_if_exists_count_other {env : WorkerEnv} {st : WorkerState} {nm nm' : String}
    (hne : nm' ≠ nm) :
    ((remove_container_if_exists env st nm).2).engine.countName nm' =
      st.engine.countName nm' := by
  unfold remove_container_if_exists
  split
  · rfl
  case h_2 c hc =>
    obtain ⟨hm, hn⟩ := Engine.getByName_some hc
    split
    · exact Engine.countName_removeContainer_other hm hn hne
    · rfl

lemma remove_if_exists_removals (env : WorkerEnv) (st : WorkerState) (nm : String) :
    ∀ x ∈ ((remove_container_if_exists env st nm).2).removals,
      x ∈ st.removals ∨ x = nm := by
  unfold remove_container_if_exists
  split
  · exact fun x hx => .inl hx
  · split <;>
    · intro x hx
      rcases List.mem_append.1 hx with h | h
      · exact .inl h
      · exact .inr (List.mem_singleton.1 h)

lemma remove_if_exists_ok {env : WorkerEnv} {st : WorkerState} {nm : String}
    (hrm : env.removeOk nm = true) :
    ∃ st', remove_container_if_exists env st nm = (.ok (), st') ∧
      st'.reports = st.reports ∧
      (st.engine.countName nm ≤ 1 → st'.engine.countName nm = 0) ∧
      (∀ nm', nm' ≠ nm → st'.engine.countName nm' = st.engine.countName nm') ∧
      (∀ x ∈ st'.removals, x ∈ st.removals ∨ x = nm) := by
  unfold remove_container_if_exists
  split
  case h_1 h =>
    exact ⟨st, rfl, rfl, fun _ => Engine.getByName_none_countName h,
      fun _ _ => rfl, fun x hx => .inl hx⟩
  case h_2 c hc =>
    obtain ⟨hm, hn⟩ := Engine.getByName_some hc
    rw [hrm]
    simp only [if_true]
    refine ⟨_, rfl, rfl, ?_, ?_, ?_⟩
    · intro hle
      have h1 := Engine.one_le_countName hm hn
      have := Engine.countName_removeContainer_of_mem hm hn
      simp only [this]
      omega
    · intro nm' hne
      exact Engine.countName_removeContainer_other hm hn hne
    · intro x hx
      rcases List.mem_append.1 hx with h | h
      · exact .inl h
      · exact .inr (List.mem_singleton.1 h)

lemma start_container_ok {env : WorkerEnv} {st : WorkerState} {target : DeployTarget}
    {netnm : String} (hnet : env.resolvedNetwork = some netnm)
    (hrun : env.runOk = true)
    (hrm : env.removeOk (build_container_name target.submission_id) = true) :
    ∃ st', start_container env st target =
        (.ok (build_container_name target.submission_id), st') ∧
      st'.reports = st.reports ∧
      (st.engine.countName (build_container_name target.submission_id) ≤ 1 →
        st'.engine.countName (build_container_name target.submission_id) = 1) ∧
      (∀ nm', nm' ≠ build_container_name target.submission_id →
        st'.engine.countName nm' = st.engine.countName nm') ∧
      (∀ x ∈ st'.removals,
        x ∈ st.removals ∨ x = build_container_name target.submission_id) := by
  obtain ⟨st1, heq, hrep, hzero, hother, hremv⟩ :=
    @remove_if_exists_ok env st (build_container_name target.submission_id) hrm
  refine ⟨{ st1 with engine := st1.engine.create (build_container_name target.submission_id) }, ?_, hrep, ?_, ?_, hremv⟩
  · simp only [start_container, hnet, heq, hrun, if_true]
  · intro hle
    simp [Engine.countName_create, hzero hle]
  · intro nm' hne
    simp [Engine.countName_create, hother nm' hne, Ne.symm hne]

lemma remove_state_reports (env : WorkerEnv) (st : WorkerState) (nm : String) :
    ((remove_container env st nm).2).reports = st.reports :=
  remove_if_exists_reports env st nm

lemma remove_state_count_other {env : WorkerEnv} {st : WorkerState} {nm nm' : String}
    (hne : nm' ≠ nm) :
    ((remove_container env st nm).2).engine.countName nm' =
      st.engine.countName nm' :=
  remove_if_exists_count_other hne

lemma remove_state_removals (env : WorkerEnv) (st : WorkerState) (nm : String) :
    ∀ x ∈ ((remove_container env st nm).2).removals, x ∈ st.removals ∨ x = nm :=
  remove_if_exists_removals env st nm

lemma cleanup_reports (env : WorkerEnv) (st : WorkerState) (cur : Option Int)
    (new : Int) : (cleanup_old_container env st cur new).reports = st.reports := by
  unfold cleanup_old_container
  split
  · rfl
  · split
    · rfl
    · exact remove_state_reports _ _ _

lemma cleanup_count_le (env : WorkerEnv) (st : WorkerState) (cur : Option Int)
    (new : Int) (nm : String) :
    (cleanup_old_container env st cur new).engine.countName nm ≤
      st.engine.countName nm := by
  unfold cleanup_old_container
  split
  · exact le_refl _
  · split
    · exact le_refl _
    · exact remove_if_exists_count_le _ _ _ _

lemma cleanup_engine_of_remove_fail {env : WorkerEnv} (st : WorkerState)
    {cur : Int} (new : Int)
    (hfail : env.removeOk (build_container_name cur) = false) :
    (cleanup_old_container env st (some cur) new).engine = st.engine := by
  simp only [cleanup_old_container]
  split
  · rfl
  · simp only [remove_container, remove_container_if_exists]
    split
    · rfl
    · simp only [hfail, Bool.false_eq_true, if_false]

lemma stop_submission_reports (env : WorkerEnv) (st : WorkerState) (sid : Int) :
    (stop_submission env st sid).reports = st.reports :=
  remove_state_reports env st _

/-! ## Success-path characterization of the deploy pipeline -/

lemma pipeline_body_success {env : WorkerEnv} {st : WorkerState} {sid : Int}
    {target : DeployTarget} {netnm : String}
    (htok : ¬ env.apiToken = "")
    (hrep : ∀ k, env.reportOk k = true)
    (hpull : env.pullOk target.image_ref = true)
    (hnet : env.resolvedNetwork = some netnm)
    (hrun : env.runOk = true)
    (hrm : env.removeOk (build_container_name target.submission_id) = true)
    (hhc : (health_check env).1 = true) :
    ∃ st4, pipeline_body env st sid target =
        (.ok (), cleanup_old_container env st4 target.current_submission_id sid) ∧
      st4.reports = st.reports ++
        [⟨sid, pullingPayload target⟩, ⟨sid, deployingPayload⟩,
         ⟨sid, healthcheckingPayload⟩, ⟨sid, onlinePayload target⟩] ∧
      (st.engine.countName (build_container_name target.submission_id) ≤ 1 →
        st4.engine.countName (build_container_name target.submission_id) = 1) ∧
      (∀ nm', nm' ≠ build_container_name target.submission_id →
        st4.engine.countName nm' = st.engine.countName nm') ∧
      (∀ x ∈ st4.removals,
        x ∈ st.removals ∨ x = build_container_name target.submission_id) := by
  obtain ⟨st3, heq, hrp3, hone3, hoth3, hrm3⟩ :=
    @start_container_ok env { st with reports := st.reports ++
      [⟨sid, pullingPayload target⟩, ⟨sid, deployingPayload⟩] } target netnm
      hnet hrun hrm
  refine ⟨{ st3 with reports := st3.reports ++
      [⟨sid, healthcheckingPayload⟩, ⟨sid, onlinePayload target⟩] }, ?_, ?_, ?_, ?_, ?_⟩
  · have hu := update_status_ok_all htok hrep
    simp [pipeline_body, hu, docker_pull, hpull, heq, hhc]
  · simp only [hrp3, List.append_assoc, List.cons_append, List.nil_append]
  · intro hle
    exact hone3 hle
  · intro nm' hne
    exact hoth3 nm' hne
  · exact hrm3

lemma process_submission_success {env : WorkerEnv} {st : WorkerState} {sid : Int}
    {target : DeployTarget} {netnm : String}
    (htok : ¬ env.apiToken = "")
    (hload : load_deploy_target env sid = .ok target)
    (hrep : ∀ k, env.reportOk k = true)
    (hpull : env.pullOk target.image_ref = true)
    (hnet : env.resolvedNetwork = some netnm)
    (hrun : env.runOk = true)
    (hrm : env.removeOk (build_container_name target.submission_id) = true)
    (hhc : (health_check env).1 = true) :
    ∃ st4, process_submission env st sid =
        (.ok (), cleanup_old_container env st4 target.current_submission_id sid) ∧
      st4.reports = st.reports ++
        [⟨sid, pullingPayload target⟩, ⟨sid, deployingPayload⟩,
         ⟨sid, healthcheckingPayload⟩, ⟨sid, onlinePayload target⟩] ∧
      (st.engine.countName (build_container_name target.submission_id) ≤ 1 →
        st4.engine.countName (build_container_name target.submission_id) = 1) ∧
      (∀ nm', nm' ≠ build_container_name target.submission_id →
        st4.engine.countName nm' = st.engine.countName nm') ∧
      (∀ x ∈ st4.removals,
        x ∈ st.removals ∨ x = build_container_name target.submission_id) := by
  obtain ⟨st4, hpip, h1, h2, h3, h4⟩ :=
    @pipeline_body_success env st sid target netnm htok hrep hpull hnet hrun hrm hhc
  exact ⟨st4, by simp [process_submission, hload, hpip], h1, h2, h3, h4⟩

lemma load_deploy_target_domain {env : WorkerEnv} {sid : Int} {t : DeployTarget}
    (h : load_deploy_target env sid = .ok t) :
    t.domain = build_project_domain sid := by
  simp only [load_deploy_target] at h
  split at h
  · cases h
  · split at h
    · cases h
    · cases h
      rfl

lemma build_project_domain_ne_empty (sid : Int) : build_project_domain sid ≠ "" := by
  intro h
  have h2 := congrArg String.length h
  unfold build_project_domain at h2
  rw [String.length_append, String.length_append] at h2
  have hp : ("project-" : String).length = 8 := rfl
  have he : (".example.test" : String).length = 13 := rfl
  rw [hp, he] at h2
  simp at h2

/-! ## Health-gate lemmas -/

lemma health_go_le (resp : Nat → Option Nat) : ∀ n i, (health_check_go resp n i).2 ≤ n
  | 0, _ => le_refl 0
  | n + 1, i => by
    unfold health_check_go
    split
    · simp
    · have := health_go_le resp n (i + 1)
      simp only []
      omega

lemma health_go_true_iff (resp : Nat → Option Nat) :
    ∀ n i, (health_check_go resp n i).1 = true ↔ ∃ k, k < n ∧ resp (i + k) = some 200
  | 0, i => by simp [health_check_go]
  | n + 1, i => by
    unfold health_check_go
    split
    case isTrue h =>
      simp only [true_iff]
      exact ⟨0, by omega, by simpa using h⟩
    case isFalse h =>
      have ih := health_go_true_iff resp n (i + 1)
      simp only [] at ih ⊢
      rw [ih]
      constructor
      · rintro ⟨k, hk, hr⟩
        exact ⟨k + 1, by omega, by simpa [Nat.add_assoc, Nat.add_comm 1 k] using hr⟩
      · rintro ⟨k, hk, hr⟩
        match k with
        | 0 => exact absurd (by simpa using hr) h
        | k + 1 =>
          exact ⟨k, by omega, by simpa [Nat.add_assoc, Nat.add_comm 1 k] using hr⟩

lemma health_go_congr (resp resp' : Nat → Option Nat)
    (h : ∀ j, resp j = some 200 ↔ resp' j = some 200) :
    ∀ n i, health_check_go resp n i = health_check_go resp' n i
  | 0, _ => rfl
  | n + 1, i => by
    unfold health_check_go
    by_cases hc : resp i = some 200
    · rw [if_pos hc, if_pos ((h i).1 hc)]
    · rw [if_neg hc, if_neg (fun hc' => hc ((h i).2 hc'))]
      rw [health_go_congr resp resp' h n (i + 1)]

/-! ## Preservation of the at-most-one-container-per-name invariant -/

lemma remove_if_exists_ok_count_zero {env : WorkerEnv} {st : WorkerState}
    {nm : String} {st1 : WorkerState}
    (h : remove_container_if_exists env st nm = (.ok (), st1))
    (hle : st.engine.countName nm ≤ 1) :
    st1.engine.countName nm = 0 := by
  unfold remove_container_if_exists at h
  split at h
  case h_1 hg =>
    cases h
    exact Engine.getByName_none_countName hg
  case h_2 c hg =>
    obtain ⟨hm, hn⟩ := Engine.getByName_some hg
    split at h
    · cases h
      have h1 := Engine.one_le_countName hm hn
      have h2 := Engine.countName_removeContainer_of_mem hm hn
      simp only [h2]
      omega
    · cases h

lemma remove_if_exists_pair_count_le {env : WorkerEnv} {st : WorkerState}
    {nm : String} {r : Except PyErr Unit} {st1 : WorkerState}
    (h : remove_container_if_exists env st nm = (r, st1)) (nm' : String) :
    st1.engine.countName nm' ≤ st.engine.countName nm' := by
  have := remove_if_exists_count_le env st nm nm'
  rw [h] at this
  exact this

lemma start_container_inv {env : WorkerEnv} {st : WorkerState} {target : DeployTarget}
    (hinv : ∀ nm, st.engine.countName nm ≤ 1) :
    ∀ nm, ((start_container env st target).2).engine.countName nm ≤ 1 := by
  intro nm
  unfold start_container
  split
  · exact hinv nm
  · rcases h : remove_container_if_exists env st
      (build_container_name target.submission_id) with ⟨r, st1⟩
    have hle1 := remove_if_exists_pair_count_le h nm
    cases r with
    | error e =>
      simp only [h]
      exact le_trans hle1 (hinv nm)
    | ok a =>
      simp only [h]
      split
      · by_cases hnm : build_container_name target.submission_id = nm
        · subst hnm
          have h0 := remove_if_exists_ok_count_zero h
            (hinv (build_container_name target.submission_id))
          simp [Engine.countName_create, h0]
        · simp only [Engine.countName_create, if_neg hnm, add_zero]
          exact le_trans hle1 (hinv nm)
      · exact le_trans hle1 (hinv nm)

lemma update_status_pair_engine {env : WorkerEnv} {st : WorkerState} {sid : Int}
    {p : StatusPayload} {r : Except PyErr Unit} {st1 : WorkerState}
    (h : update_status env st sid p = (r, st1)) : st1.engine = st.engine := by
  have := (update_status_engine env st sid p).1
  rw [h] at this
  exact this

lemma safe_update_status_engine (env : WorkerEnv) (st : WorkerState) (sid : Int)
    (p : StatusPayload) : (safe_update_status env st sid p).engine = st.engine :=
  (update_status_engine env st sid p).1

lemma safe_update_status_removals (env : WorkerEnv) (st : WorkerState) (sid : Int)
    (p : StatusPayload) : (safe_update_status env st sid p).removals = st.removals :=
  (update_status_engine env st sid p).2

lemma cleanup_inv {env : WorkerEnv} {st : WorkerState} {cur : Option Int} {new : Int}
    (hinv : ∀ nm, st.engine.countName nm ≤ 1) :
    ∀ nm, (cleanup_old_container env st cur new).engine.countName nm ≤ 1 :=
  fun nm => le_trans (cleanup_count_le env st cur new nm) (hinv nm)

lemma pipeline_body_inv {env : WorkerEnv} {st : WorkerState} {sid : Int}
    {target : DeployTarget}
    (hinv : ∀ nm, st.engine.countName nm ≤ 1) :
    ∀ nm, ((pipeline_body env st sid target).2).engine.countName nm ≤ 1 := by
  intro nm
  unfold pipeline_body
  rcases h1 : update_status env st sid (pullingPayload target) with ⟨r1, st1⟩
  have he1 := update_status_pair_engine h1
  have hinv1 : ∀ nm, st1.engine.countName nm ≤ 1 := by rw [he1]; exact hinv
  cases r1 with
  | error e => simp only [h1]; exact hinv1 nm
  | ok a =>
    simp only [h1]
    cases hdp : docker_pull env target.image_ref with
    | error e => exact hinv1 nm
    | ok b =>
      rcases h2 : update_status env st1 sid deployingPayload with ⟨r2, st2⟩
      have he2 := update_status_pair_engine h2
      have hinv2 : ∀ nm, st2.engine.countName nm ≤ 1 := by rw [he2]; exact hinv1
      cases r2 with
      | error e => simp only [h2]; exact hinv2 nm
      | ok c =>
        simp only [h2]
        rcases h3 : start_container env st2 target with ⟨r3, st3⟩
        have hinv3 : ∀ nm, st3.engine.countName nm ≤ 1 := by
          intro nm'
          have := @start_container_inv env st2 target hinv2 nm'
          rw [h3] at this
          exact this
        cases r3 with
        | error e => simp only [h3]; exact hinv3 nm
        | ok d =>
          simp only [h3]
          rcases h4 : update_status env st3 sid healthcheckingPayload with ⟨r4, st4⟩
          have he4 := update_status_pair_engine h4
          have hinv4 : ∀ nm, st4.engine.countName nm ≤ 1 := by rw [he4]; exact hinv3
          cases r4 with
          | error e => simp only [h4]; exact hinv4 nm
          | ok f =>
            simp only [h4]
            split
            · exact hinv4 nm
            · rcases h5 : update_status env st4 sid (onlinePayload target) with ⟨r5, st5⟩
              have he5 := update_status_pair_engine h5
              have hinv5 : ∀ nm, st5.engine.countName nm ≤ 1 := by rw [he5]; exact hinv4
              cases r5 with
              | error e => simp only [h5]; exact hinv5 nm
              | ok g =>
                simp only [h5]
                exact cleanup_inv hinv5 nm

lemma process_submission_inv {env : WorkerEnv} {st : WorkerState} {sid : Int}
    (hinv : ∀ nm, st.engine.countName nm ≤ 1) :
    ∀ nm, ((process_submission env st sid).2).engine.countName nm ≤ 1 := by
  intro nm
  unfold process_submission
  split
  · exact hinv nm
  case h_2 tgt htgt =>
    rcases hp : pipeline_body env st sid tgt with ⟨r, st'⟩
    have hinv' : ∀ nm, st'.engine.countName nm ≤ 1 := by
      intro nm'
      have := @pipeline_body_inv env st sid tgt hinv nm'
      rw [hp] at this
      exact this
    cases r with
    | ok a => simp only [hp]; exact hinv' nm
    | error e =>
      simp only [hp, safe_update_status_engine]
      exact le_trans (remove_if_exists_pair_count_le rfl nm) (hinv' nm)

lemma stop_submission_inv {env : WorkerEnv} {st : WorkerState} {sid : Int}
    (hinv : ∀ nm, st.engine.countName nm ≤ 1) :
    ∀ nm, (stop_submission env st sid).engine.countName nm ≤ 1 :=
  fun nm => le_trans (remove_if_exists_count_le env st _ nm) (hinv nm)

lemma worker_step_inv {env : WorkerEnv} {st : WorkerState} {raw : String}
    (hinv : ∀ nm, st.engine.countName nm ≤ 1) :
    ∀ nm, ((worker_step env st raw).2).engine.countName nm ≤ 1 := by
  intro nm
  unfold worker_step
  split
  · exact hinv nm
  · exact hinv nm
  · split
    · exact process_submission_inv hinv nm
    · split
      · exact stop_submission_inv hinv nm
      · exact hinv nm

lemma worker_loop_msgs_inv {env : WorkerEnv} :
    ∀ (msgs : List String) (st : WorkerState),
      (∀ nm, st.engine.countName nm ≤ 1) →
      ∀ nm, ((worker_loop_msgs env st msgs).2).engine.countName nm ≤ 1
  | [], st, hinv => hinv
  | raw :: rest, st, hinv => by
    intro nm
    unfold worker_loop_msgs
    rcases h : worker_step env st raw with ⟨r, st'⟩
    have hinv' : ∀ nm, st'.engine.countName nm ≤ 1 := by
      intro nm'
      have := @worker_step_inv env st raw hinv nm'
      rw [h] at this
      exact this
    cases r with
    | ok a =>
      simp only [h]
      exact worker_loop_msgs_inv rest st' hinv' nm
    | error e =>
      simp only [h]
      exact hinv' nm

lemma countName_le_length (e : Engine) (nm : String) :
    e.countName nm ≤ e.containers.length :=
  List.length_filter_le _ _

/-! ## Decoder lemmas -/

lemma pyIntCoerce_error_classes {v : PyVal} {e : PyErr}
    (h : pyIntCoerce v = .error e) :
    e = .typeError ∨ e = .valueError ∨ e = .overflowError := by
  cases v with
  | pynone => cases h; exact .inl rfl
  | pybool b => exact Except.noConfusion h
  | pyint n => exact Except.noConfusion h
  | pyfloat neg m ex => exact Except.noConfusion h
  | pyinf neg => cases h; exact .inr (.inr rfl)
  | pynan => cases h; exact .inr (.inl rfl)
  | pystr s =>
    simp only [pyIntCoerce] at h
    split at h
    · exact Except.noConfusion h
    · cases h; exact .inr (.inl rfl)
  | pylist xs => cases h; exact .inl rfl
  | pydict kvs => cases h; exact .inl rfl

/-! ## Claim theorems -/

/-- C1 (amended): for every deploy job whose target resolution fails
(submission record missing, or no image reference), no container is ever
created and no status callback is issued for that job — but, because
`_load_deploy_target` is called before the `try:` block and `_worker_loop`
has no per-job exception handler, the resolution exception propagates
unchanged out of `_process_submission` and out of the worker loop, which
therefore does NOT report FAILED and does NOT go on to process subsequent
jobs: the state is returned exactly as it was. -/
theorem C1_resolution_failure_propagates (env : WorkerEnv) (st : WorkerState)
    (raw : String) (rest : List String) (sid : Int) (e : PyErr)
    (htok : ¬ env.apiToken = "")
    (hparse : parse_queue_item raw = .ok (some ⟨"deploy", sid⟩))
    (hload : load_deploy_target env sid = .error e) :
    process_submission env st sid = (.error e, st) ∧
    worker_loop env st (raw :: rest) = (.error e, st) := by
  have hproc : process_submission env st sid = (.error e, st) := by
    simp [process_submission, hload]
  refine ⟨hproc, ?_⟩
  simp [worker_loop, htok, worker_loop_msgs, worker_step, hparse, hproc]

/-- C1 witness: concrete run of the amended claim — submission 1 has no
database row; the deploy job for it leaves the state untouched and the
exception escapes the loop. -/
theorem C1_resolution_failure_propagates_witness :
    process_submission envMissingRow emptyState 1 =
      (.error (.runtime "提交记录不存在"), emptyState) ∧
    worker_loop envMissingRow emptyState ["1"] =
      (.error (.runtime "提交记录不存在"), emptyState) :=
  C1_resolution_failure_propagates envMissingRow emptyState "1" [] 1
    (.runtime "提交记录不存在") (by decide) (by decide) (by decide)

/-- C1 counterexample: the claim says a deploy job whose resolution fails
ends in a FAILED report and the loop continues with subsequent jobs.  On
the queue `["1", "2"]` under `envMissingRow` (no row for submission 1,
submission 2 fully deployable), the code instead raises out of the loop
with the state unchanged: no report at all is issued (in particular no
FAILED), and the deployable job 2 is never processed (a processed job 2
would have appended reports and created a container). -/
theorem C1_counterexample :
    worker_loop envMissingRow emptyState ["1", "2"] =
      (.error (.runtime "提交记录不存在"), emptyState) ∧
    emptyState.reports = [] ∧
    emptyState.engine.containers = [] ∧
    parse_queue_item "2" = .ok (some ⟨"deploy", 2⟩) ∧
    envMissingRow.db 2 = some rowB := by
  refine ⟨by decide, rfl, rfl, by decide, by decide⟩

/-- C2: for every deploy job that completes successfully (all oracles
cooperate), the worker issues exactly the four status callbacks
PULLING, DEPLOYING, HEALTHCHECKING, ONLINE, in that order with no repeats
or omissions, and the ONLINE callback carries
`domain = build_project_domain sid`. -/
theorem C2_success_status_sequence (env : WorkerEnv) (st : WorkerState) (sid : Int)
    (target : DeployTarget) (netnm : String)
    (htok : ¬ env.apiToken = "")
    (hload : load_deploy_target env sid = .ok target)
    (hrep : ∀ k, env.reportOk k = true)
    (hpull : env.pullOk target.image_ref = true)
    (hnet : env.resolvedNetwork = some netnm)
    (hrun : env.runOk = true)
    (hrm : ∀ nm, env.removeOk nm = true)
    (hhc : (health_check env).1 = true) :
    ∃ stf, process_submission env st sid = (.ok (), stf) ∧
      stf.reports = st.reports ++
        [⟨sid, pullingPayload target⟩, ⟨sid, deployingPayload⟩,
         ⟨sid, healthcheckingPayload⟩, ⟨sid, onlinePayload target⟩] ∧
      stf.reports.map (fun r => r.payload.status) =
        st.reports.map (fun r => r.payload.status) ++
          ["PULLING", "DEPLOYING", "HEALTHCHECKING", "ONLINE"] ∧
      (onlinePayload target).domain = some (build_project_domain sid) := by
  obtain ⟨st4, hproc, hrp, _, _, _⟩ :=
    process_submission_success htok hload hrep hpull hnet hrun (hrm _) hhc
  refine ⟨_, hproc, ?_, ?_, ?_⟩
  · rw [cleanup_reports, hrp]
  · rw [cleanup_reports, hrp]
    simp [pullingPayload, deployingPayload, healthcheckingPayload, onlinePayload,
      build_status_payload, ProjectSubmissionStatus.value]
  · have hd := load_deploy_target_domain hload
    simp [onlinePayload, build_status_payload, optIfTruthy, hd,
      build_project_domain_ne_empty sid]

/-- C2 witness: the concrete all-healthy deploy of submission 1. -/
theorem C2_success_status_sequence_witness :
    ∃ stf, process_submission envA stateA 1 = (.ok (), stf) ∧
      stf.reports = stateA.reports ++
        [⟨1, pullingPayload targetA⟩, ⟨1, deployingPayload⟩,
         ⟨1, healthcheckingPayload⟩, ⟨1, onlinePayload targetA⟩] ∧
      stf.reports.map (fun r => r.payload.status) =
        stateA.reports.map (fun r => r.payload.status) ++
          ["PULLING", "DEPLOYING", "HEALTHCHECKING", "ONLINE"] ∧
      (onlinePayload targetA).domain = some (build_project_domain 1) :=
  C2_success_status_sequence envA stateA 1 targetA "deploy-net"
    (by decide) (by decide) (fun _ => rfl) rfl rfl rfl (fun _ => rfl) (by decide)

/-- C3 (amended): for every deploy job in which a pipeline step after
resolution fails (pull, container start, health gate, or an intermediate
status report), the worker removes only the container named
`project-<submission_id>` (a removal failure is swallowed — the function
still returns normally), then records the FAILED report through the safe
reporter (whose transport failures are also swallowed: the result is
`.ok` with no condition on `reportOk`); every container under any other
name is untouched and no cutover occurs, so whenever
`current_submission_id ≠ submission_id` the previously-live container
survives.  (As stated the claim is false in the self-redeploy corner
`current_submission_id = submission_id`: see the counterexample.) -/
theorem C3_failure_path (env : WorkerEnv) (st : WorkerState) (sid : Int)
    (target : DeployTarget) (exc : PyErr) (st' : WorkerState)
    (htok : ¬ env.apiToken = "")
    (hload : load_deploy_target env sid = .ok target)
    (hfail : pipeline_body env st sid target = (.error exc, st')) :
    ∃ stf, process_submission env st sid = (.ok (), stf) ∧
      stf.reports = st'.reports ++ [⟨sid, failedPayload exc⟩] ∧
      (∀ nm, nm ≠ build_container_name sid →
        stf.engine.countName nm = st'.engine.countName nm) ∧
      (∀ x ∈ stf.removals, x ∈ st'.removals ∨ x = build_container_name sid) := by
  refine ⟨safe_update_status env
      ((remove_container env st' (build_container_name sid)).2) sid
      (failedPayload exc), ?_, ?_, ?_, ?_⟩
  · simp [process_submission, hload, hfail]
  · rw [safe_update_status_eq _ _ _ htok]
    simp [remove_state_reports]
  · intro nm hne
    rw [safe_update_status_engine]
    exact remove_state_count_other hne
  · intro x hx
    rw [safe_update_status_removals] at hx
    exact remove_state_removals env st' (build_container_name sid) x hx

/-- C3 witness: concrete failing deploy (pull failure) of submission 1. -/
theorem C3_failure_path_witness :
    ∃ stf, process_submission envPullFail stateSelfLive 1 = (.ok (), stf) ∧
      stf.reports =
        ({ stateSelfLive with reports := stateSelfLive.reports ++
            [⟨1, pullingPayload targetSelfLive⟩] } : WorkerState).reports ++
          [⟨1, failedPayload (.runtime "image pull failed")⟩] ∧
      (∀ nm, nm ≠ build_container_name 1 →
        stf.engine.countName nm =
          ({ stateSelfLive with reports := stateSelfLive.reports ++
              [⟨1, pullingPayload targetSelfLive⟩] } : WorkerState).engine.countName nm) ∧
      (∀ x ∈ stf.removals,
        x ∈ ({ stateSelfLive with reports := stateSelfLive.reports ++
            [⟨1, pullingPayload targetSelfLive⟩] } : WorkerState).removals ∨
          x = build_container_name 1) :=
  C3_failure_path envPullFail stateSelfLive 1 targetSelfLive
    (.runtime "image pull failed")
    { stateSelfLive with reports := stateSelfLive.reports ++
        [⟨1, pullingPayload targetSelfLive⟩] }
    (by decide) (by decide) (by decide)

/-- C3 counterexample: the claim states that on the failure path "the
previously-live container of the project is never removed".  With
`current_submission_id = submission_id = 1` (a redeploy of the live
submission) and a pull failure, the failure-path cleanup removes
`project-1`, which is precisely the previously-live container: it existed
before the job and no longer exists afterward. -/
theorem C3_counterexample :
    stateSelfLive.engine.countName "project-1" = 1 ∧
    rowSelfLive.current_submission_id = some 1 ∧
    (process_submission envPullFail stateSelfLive 1).1 = .ok () ∧
    (process_submission envPullFail stateSelfLive 1).2.engine.countName
      "project-1" = 0 ∧
    "project-1" ∈ (process_submission envPullFail stateSelfLive 1).2.removals := by
  refine ⟨by decide, rfl, by decide, by decide, by decide⟩

/-- C4: the launcher force-removes any same-named container before
creating (`_start_container_sync`), so from any state satisfying the
at-most-one-container-per-name invariant, both a single launch and any
run of the worker loop (in particular one replaying the same deploy job
twice) preserve it: no name — hence no submission id — ever has two
simultaneously existing containers. -/
theorem C4_at_most_one_per_name (env : WorkerEnv) (st : WorkerState)
    (target : DeployTarget) (msgs : List String)
    (hinv : ∀ nm, st.engine.countName nm ≤ 1) :
    (∀ nm, ((start_container env st target).2).engine.countName nm ≤ 1) ∧
    (∀ nm, ((worker_loop env st msgs).2).engine.countName nm ≤ 1) := by
  refine ⟨start_container_inv hinv, ?_⟩
  unfold worker_loop
  split
  · exact hinv
  · exact worker_loop_msgs_inv msgs st hinv

/-- C4 witness: replaying the deploy job "1" twice from the state holding
one `project-9` container leaves at most one `project-1` container. -/
theorem C4_at_most_one_per_name_witness :
    ((start_container envA stateA targetA).2).engine.countName "project-1" ≤ 1 ∧
    ((worker_loop envA stateA ["1", "1"]).2).engine.countName "project-1" ≤ 1 := by
  have hinv : ∀ nm, stateA.engine.countName nm ≤ 1 := fun nm =>
    le_trans (countName_le_length _ _) (by decide)
  exact ⟨(C4_at_most_one_per_name envA stateA targetA ["1", "1"] hinv).1 "project-1",
    (C4_at_most_one_per_name envA stateA targetA ["1", "1"] hinv).2 "project-1"⟩

/-- C6: the health gate issues at most `retries` GET requests, succeeds
exactly when some attempt within the budget returns 200 (or the switch is
off, in which case it passes with zero requests), is insensitive to
everything about a response except whether it is a 200 (transport errors
and non-200s alike), and on responses 500, 500, 200 with retries = 3 it
succeeds after the third request. -/
theorem C6_health_gate (env env' : WorkerEnv) :
    (env.healthEnabled = false → health_check env = (true, 0)) ∧
    (health_check env).2 ≤ env.healthRetry ∧
    ((health_check env).1 = true ↔
      env.healthEnabled = false ∨
        ∃ i, i < env.healthRetry ∧ env.healthResp i = some 200) ∧
    (env.healthEnabled = env'.healthEnabled → env.healthRetry = env'.healthRetry →
      (∀ i, env.healthResp i = some 200 ↔ env'.healthResp i = some 200) →
      health_check env = health_check env') ∧
    (env.healthEnabled = true → env.healthRetry = 3 →
      env.healthResp 0 = some 500 → env.healthResp 1 = some 500 →
      env.healthResp 2 = some 200 → health_check env = (true, 3)) := by
  refine ⟨?_, ?_, ?_, ?_, ?_⟩
  · intro h
    simp [health_check, h]
  · cases h : env.healthEnabled
    · simp [health_check, h]
    · simp only [health_check, h, Bool.not_true, Bool.false_eq_true, if_false]
      exact health_go_le _ _ _
  · cases h : env.healthEnabled
    · simp [health_check, h]
    · simp only [health_check, h, Bool.not_true, Bool.false_eq_true, if_false,
        Bool.true_eq_false, false_or]
      rw [health_go_true_iff]
      simp
  · intro h1 h2 h3
    unfold health_check
    rw [h1, h2, health_go_congr _ _ h3]
  · intro he hr h0 h1 h2
    simp [health_check, he, hr, health_check_go, h0, h1, h2]

/-- C6 witness: the spec's 500-500-200 example under `envA`. -/
theorem C6_health_gate_witness :
    health_check envA = (true, 3) ∧ (health_check envA).2 ≤ envA.healthRetry := by
  have h := C6_health_gate envA envA
  exact ⟨h.2.2.2.2 rfl rfl rfl rfl rfl, h.2.1⟩

/-- C7: at cutover, no removal call at all is issued when
`current_submission_id` is unset or equals the new submission id (the
state — engine, reports and removal trace — is returned unchanged); when
it is set and differs but the old container's removal fails, the failure
is swallowed: the deploy still returns successfully with the four
progress reports ending in ONLINE and the new container live. -/
theorem C7_cutover_only_when_distinct (env : WorkerEnv) (st : WorkerState)
    (sid cur new : Int) (target : DeployTarget) (netnm : String) :
    (cleanup_old_container env st none new = st) ∧
    (cleanup_old_container env st (some new) new = st) ∧
    (env.removeOk (build_container_name cur) = false →
      (cleanup_old_container env st (some cur) new).engine = st.engine ∧
      (cleanup_old_container env st (some cur) new).reports = st.reports) ∧
    (¬ env.apiToken = "" → load_deploy_target env sid = .ok target →
      (∀ k, env.reportOk k = true) → env.pullOk target.image_ref = true →
      env.resolvedNetwork = some netnm → env.runOk = true →
      target.submission_id = sid →
      env.removeOk (build_container_name sid) = true →
      (health_check env).1 = true →
      target.current_submission_id = some cur →
      env.removeOk (build_container_name cur) = false →
      st.engine.countName (build_container_name sid) ≤ 1 →
      ∃ stf, process_submission env st sid = (.ok (), stf) ∧
        stf.reports = st.reports ++
          [⟨sid, pullingPayload target⟩, ⟨sid, deployingPayload⟩,
           ⟨sid, healthcheckingPayload⟩, ⟨sid, onlinePayload target⟩] ∧
        stf.engine.countName (build_container_name sid) = 1) := by
  refine ⟨rfl, by simp [cleanup_old_container], ?_, ?_⟩
  · intro hfail
    exact ⟨cleanup_engine_of_remove_fail st new hfail, cleanup_reports env st _ new⟩
  · intro htok hload hrep hpull hnet hrun hsid hrm hhc hcur hfail hle
    have hrm' : env.removeOk (build_container_name target.submission_id) = true := by
      rw [hsid]; exact hrm
    obtain ⟨st4, hproc, hrp, hone, _, _⟩ :=
      process_submission_success htok hload hrep hpull hnet hrun hrm' hhc
    rw [hcur] at hproc
    refine ⟨_, hproc, ?_, ?_⟩
    · rw [cleanup_reports, hrp]
    · rw [cleanup_engine_of_remove_fail st4 sid hfail]
      have hle' : st.engine.countName (build_container_name target.submission_id) ≤ 1 := by
        rw [hsid]; exact hle
      have h1 := hone hle'
      rw [hsid] at h1
      exact h1

/-- C7 witness: self-cutover no-op, and a deploy of submission 1 over live
submission 9 whose old-container removal fails yet stays successful. -/
theorem C7_cutover_only_when_distinct_witness :
    (cleanup_old_container envOldRemoveFails stateA (some 5) 5 = stateA) ∧
    (∃ stf, process_submission envOldRemoveFails stateA 1 = (.ok (), stf) ∧
      stf.reports = stateA.reports ++
        [⟨1, pullingPayload targetA⟩, ⟨1, deployingPayload⟩,
         ⟨1, healthcheckingPayload⟩, ⟨1, onlinePayload targetA⟩] ∧
      stf.engine.countName (build_container_name 1) = 1) := by
  have h := C7_cutover_only_when_distinct envOldRemoveFails stateA 1 9 5 targetA
    "deploy-net"
  exact ⟨h.2.1, h.2.2.2 (by decide) (by decide) (fun _ => rfl) rfl rfl rfl rfl
    (by decide) (by decide) rfl (by decide) (by decide)⟩

/-- C8 counterexample: the claim says the resolver prefers a domain
already persisted on the submission.  With the pinned domain
`pinned.example.com` on the row, `_load_deploy_target` still returns the
derived `build_project_domain 1 = "project-1.example.test"`, not the
pinned value. -/
theorem C8_counterexample :
    rowPinnedDomain.domain = some "pinned.example.com" ∧
    load_deploy_target envPinnedDomain 1 =
      .ok { submission_id := 1, project_id := 10
            image_ref := "registry.test/img:1"
            domain := "project-1.example.test", current_submission_id := none } ∧
    ("project-1.example.test" : String) ≠ "pinned.example.com" := by
  refine ⟨rfl, by decide, by decide⟩

/-- C8 (amended): the resolver always derives the domain via the shared
deterministic naming function of the submission id; it never reads a
persisted domain from the row. -/
theorem C8_domain_always_derived (env : WorkerEnv) (sid : Int) (t : DeployTarget)
    (h : load_deploy_target env sid = .ok t) :
    t.domain = build_project_domain sid :=
  load_deploy_target_domain h

/-- C8 witness: the concrete resolution of submission 1. -/
theorem C8_domain_always_derived_witness :
    load_deploy_target envA 1 = .ok targetA ∧
    targetA.domain = build_project_domain 1 :=
  ⟨by decide, C8_domain_always_derived envA 1 targetA (by decide)⟩

/-- C9: a stop job for submission id N removes the container named
`project-N` (to zero instances, given the engine's per-name uniqueness)
and issues zero status callbacks; containers under every other name are
untouched, every removal attempt on this path targets only `project-N`,
and the dispatcher maps the spec's example message to exactly
`_stop_submission 7`. -/
theorem C9_stop_job (env : WorkerEnv) (st : WorkerState) (sid : Int)
    (hrm : env.removeOk (build_container_name sid) = true)
    (hle : st.engine.countName (build_container_name sid) ≤ 1) :
    (stop_submission env st sid).reports = st.reports ∧
    (stop_submission env st sid).engine.countName (build_container_name sid) = 0 ∧
    (∀ nm, nm ≠ build_container_name sid →
      (stop_submission env st sid).engine.countName nm = st.engine.countName nm) ∧
    (∀ x ∈ (stop_submission env st sid).removals,
      x ∈ st.removals ∨ x = build_container_name sid) ∧
    worker_step env st stopMsg7 = (.ok (), stop_submission env st 7) := by
  obtain ⟨st', heq, hrp, hzero, hoth, hrmv⟩ :=
    @remove_if_exists_ok env st (build_container_name sid) hrm
  have hstop : stop_submission env st sid = st' := by
    unfold stop_submission remove_container
    rw [heq]
  refine ⟨by rw [hstop]; exact hrp, by rw [hstop]; exact hzero hle,
    fun nm hne => by rw [hstop]; exact hoth nm hne,
    fun x hx => hrmv x (by rw [hstop] at hx; exact hx), ?_⟩
  have hp : parse_queue_item stopMsg7 = .ok (some ⟨"stop", 7⟩) := by decide
  simp [worker_step, hp]

/-- C9 witness: stopping submission 9 removes `project-9`, reports
nothing, and the example stop message dispatches to `_stop_submission 7`. -/
theorem C9_stop_job_witness :
    (stop_submission envA stateA 9).reports = stateA.reports ∧
    (stop_submission envA stateA 9).engine.countName (build_container_name 9) = 0 ∧
    worker_step envA stateA stopMsg7 = (.ok (), stop_submission envA stateA 7) := by
  have h := C9_stop_job envA stateA 9 (by decide) (by decide)
  exact ⟨h.1, h.2.1, h.2.2.2.2⟩

/-- C10: removal by name is total with respect to absence: when no
container with the name exists, `_remove_container_if_exists` (and its
`_remove_container` wrapper) catches the engine's NotFound and returns the
state unchanged with no error, and a stop job for a never-deployed
submission is a silent no-op. -/
theorem C10_remove_absent_is_noop (env : WorkerEnv) (st : WorkerState)
    (nm : String) (sid : Int) :
    (st.engine.getByName nm = none →
      remove_container_if_exists env st nm = (.ok (), st) ∧
      remove_container env st nm = (.ok (), st)) ∧
    (st.engine.getByName (build_container_name sid) = none →
      stop_submission env st sid = st) := by
  constructor
  · intro h
    have h1 : remove_container_if_exists env st nm = (.ok (), st) := by
      simp only [remove_container_if_exists, h]
    exact ⟨h1, h1⟩
  · intro h
    unfold stop_submission remove_container
    simp only [remove_container_if_exists, h]

/-- C10 witness: removing the absent `project-3` and stopping the
never-deployed submission 3 are silent no-ops. -/
theorem C10_remove_absent_is_noop_witness :
    remove_container envA emptyState "project-3" = (.ok (), emptyState) ∧
    stop_submission envA emptyState 3 = emptyState := by
  have h := C10_remove_absent_is_noop envA emptyState "project-3" 3
  exact ⟨(h.1 (by decide)).2, h.2 (by decide)⟩

set_option maxRecDepth 10000 in
/-- C5 counterexample: the claim says the decoder is total and never
raises, mapping every non-conforming input to "no job".  The well-formed
JSON object whose `submission_id` is the float literal `1e400` (which
overflows to an infinity) instead raises: `int(inf)` throws
`OverflowError`, which the decoder's `except (TypeError, ValueError)`
clause does not catch. -/
theorem C5_counterexample :
    parse_queue_item overflowMsg = .error .overflowError := by
  decide

/-- C5 (amended): the decoder never raises anything except an
`OverflowError` coming from an infinite-float `submission_id`; apart from
that case it is total: a bare Python-integer text decodes to a deploy job,
a JSON object with a case-insensitively valid action and an int-coercible
`submission_id` decodes to that job, and every other input decodes to "no
job" — in particular the spec's examples `"42"`, `"abc"`, `"{}"` and the
`launch` object behave as stated. -/
theorem C5_decoder (s : String) (n : Int) (kvs : List (String × PyVal))
    (v : PyVal) (e : PyErr) (act : String) :
    (pyIntOfString (pyStrip s) = some n →
      parse_queue_item s = .ok (some ⟨"deploy", n⟩)) ∧
    (pyIntOfString (pyStrip s) = none →
      json_loads (pyStrip s) = .ok (.pydict kvs) →
      pyDictGet kvs "submission_id" = some v →
      pyIntCoerce v = .ok n →
      act = pyLower (pyStr ((pyDictGet kvs "action").getD (.pystr ""))) →
      (act = "deploy" ∨ act = "stop") →
      parse_queue_item s = .ok (some ⟨act, n⟩)) ∧
    (parse_queue_item s = .error e →
      e = .overflowError ∧
      ∃ kvs' v', json_loads (pyStrip s) = .ok (.pydict kvs') ∧
        pyDictGet kvs' "submission_id" = some v' ∧
        pyIntCoerce v' = .error .overflowError) ∧
    parse_queue_item "42" = .ok (some ⟨"deploy", 42⟩) ∧
    parse_queue_item "abc" = .ok none ∧
    parse_queue_item "\x7b\x7d" = .ok none ∧
    parse_queue_item "\x7b\"action\":\"launch\",\"submission_id\":1\x7d" = .ok none := by
  refine ⟨?_, ?_, ?_, by decide, by decide, by decide, by decide⟩
  · intro h
    have hne : ¬ (pyStrip s = "") := by
      intro ht
      rw [ht] at h
      rw [show pyIntOfString "" = none from rfl] at h
      exact Option.noConfusion h
    simp only [parse_queue_item, if_neg hne, h]
  · intro hint hjson hsid hco hact hvalid
    have hne : ¬ (pyStrip s = "") := by
      intro ht
      rw [ht] at hjson
      rw [show json_loads "" = .error .jsonDecodeError from rfl] at hjson
      exact Except.noConfusion hjson
    subst hact
    simp only [parse_queue_item, if_neg hne, hint, hjson, hsid, hco]
    rcases hvalid with h | h <;> simp [h]
  · intro h
    simp only [parse_queue_item] at h
    split at h
    · exact absurd h (by simp)
    split at h
    · exact absurd h (by simp)
    split at h
    · exact absurd h (by simp)
    case h_2 data hjson =>
      split at h
      case h_2 => exact absurd h (by simp)
      case h_1 kvs2 =>
        split at h
        case h_1 heq2 => exact absurd h (by simp)
        case h_2 heq2 => exact absurd h (by simp)
        case h_4 n2 heq2 =>
          split at h
          · exact absurd h (by simp)
          · exact absurd h (by simp)
        case h_3 e2 g1 g2 heq2 =>
          cases h
          split at heq2
          case h_1 hget =>
            cases heq2
            exact (g1 rfl).elim
          case h_2 v2 hget =>
            rcases pyIntCoerce_error_classes heq2 with h1 | h1 | h1
            · exact (g1 h1).elim
            · exact (g2 h1).elim
            · subst h1
              exact ⟨rfl, kvs2, v2, hjson, hget, heq2⟩

/-- C5 witness: the bare-integer clause at `"42"` and the JSON-object
clause at the stop example message. -/
theorem C5_decoder_witness :
    parse_queue_item "42" = .ok (some ⟨"deploy", 42⟩) ∧
    parse_queue_item stopMsg7 = .ok (some ⟨"stop", 7⟩) := by
  refine ⟨(C5_decoder "42" 42 [] .pynone .overflowError "x").1 (by decide), ?_⟩
  exact (C5_decoder stopMsg7 7
      [("action", .pystr "stop"), ("submission_id", .pyint 7)] (.pyint 7)
      .overflowError "stop").2.1
    (by decide) rfl rfl rfl rfl (.inr rfl)

end Worker
